import Mathlib

/-!
Verification of the claudish local-provider layer.

This file gives a shallow embedding, in Lean 4, of the pieces of the
claudish proxy that the claims concern:

* the provider registry (`src/providers/provider-registry.ts`):
  registered local providers, prefix-based model resolution
  (`resolveProvider`), and URL-style model parsing (`parseUrlModel`);
* the local provider handler (`LocalProviderHandler`): health gating,
  context-window discovery, outbound OpenAI payload construction with
  capability gating, error-response mapping, and the token status file;
* the port finder (`findAvailablePort`).

JavaScript strings are modelled as Lean `String`s; `startsWith`,
`includes`, `slice` and `split` are modelled over the character list
`String.data` (the inputs at stake are ASCII, where JavaScript's UTF-16
view and the character view agree).  Truthiness of optional strings and
numbers is modelled explicitly where the source relies on it.
-/

namespace Claudish

/-- Model of JavaScript `String.prototype.startsWith`. -/
def jsStartsWith (s pre : String) : Bool :=
  pre.data.isPrefixOf s.data

/-- Model of JavaScript `String.prototype.includes`. -/
def jsIncludes (s pat : String) : Bool :=
  decide (pat.data <:+: s.data)

/-- Model of JavaScript `a || b` for an optional environment string:
an unset variable and the empty string are both falsy. -/
def envOr (v : Option String) (d : String) : String :=
  match v with
  | some s => if s = "" then d else s
  | none => d

/-- Capability flags of a registered provider
(`ProviderCapabilities` in `provider-registry.ts`). -/
structure ProviderCapabilities where
  supportsTools : Bool
  supportsVision : Bool
  supportsStreaming : Bool
  supportsJsonMode : Bool
  deriving Repr, DecidableEq

/-- A registered local provider (`LocalProvider` in `provider-registry.ts`). -/
structure LocalProvider where
  name : String
  baseUrl : String
  apiPath : String
  envVar : String
  apiKeyEnvVar : String
  prefixes : List String
  capabilities : ProviderCapabilities
  deriving Repr, DecidableEq

/-- Result of prefix resolution (`ResolvedProvider` in `provider-registry.ts`). -/
structure ResolvedProvider where
  provider : LocalProvider
  modelName : String
  deriving Repr, DecidableEq

/-- The environment variables `getProviders` reads. -/
structure Env where
  OLLAMA_HOST : Option String := none
  OLLAMA_BASE_URL : Option String := none
  LMSTUDIO_BASE_URL : Option String := none
  VLLM_BASE_URL : Option String := none
  MLX_BASE_URL : Option String := none

/-- The ollama entry of `getProviders`. -/
def ollamaProvider (env : Env) : LocalProvider where
  name := "ollama"
  baseUrl := envOr env.OLLAMA_HOST (envOr env.OLLAMA_BASE_URL "http://localhost:11434")
  apiPath := "/v1/chat/completions"
  envVar := "OLLAMA_BASE_URL"
  apiKeyEnvVar := "OLLAMA_API_KEY"
  prefixes := ["ollama/", "ollama:"]
  capabilities :=
    { supportsTools := true
      supportsVision := false
      supportsStreaming := true
      supportsJsonMode := true }

/-- The lmstudio entry of `getProviders` (the mlstudio prefixes are a
registered alias for a common typo). -/
def lmstudioProvider (env : Env) : LocalProvider where
  name := "lmstudio"
  baseUrl := envOr env.LMSTUDIO_BASE_URL "http://localhost:1234"
  apiPath := "/v1/chat/completions"
  envVar := "LMSTUDIO_BASE_URL"
  apiKeyEnvVar := "LMSTUDIO_API_KEY"
  prefixes := ["lmstudio/", "lmstudio:", "mlstudio/", "mlstudio:"]
  capabilities :=
    { supportsTools := true
      supportsVision := false
      supportsStreaming := true
      supportsJsonMode := true }

/-- The vllm entry of `getProviders`. -/
def vllmProvider (env : Env) : LocalProvider where
  name := "vllm"
  baseUrl := envOr env.VLLM_BASE_URL "http://localhost:8000"
  apiPath := "/v1/chat/completions"
  envVar := "VLLM_BASE_URL"
  apiKeyEnvVar := "VLLM_API_KEY"
  prefixes := ["vllm/", "vllm:"]
  capabilities :=
    { supportsTools := true
      supportsVision := false
      supportsStreaming := true
      supportsJsonMode := true }

/-- The mlx entry of `getProviders`: `supportsTools` is deliberately false
(the source disables native tools for the MLX server). -/
def mlxProvider (env : Env) : LocalProvider where
  name := "mlx"
  baseUrl := envOr env.MLX_BASE_URL "http://127.0.0.1:8080"
  apiPath := "/v1/chat/completions"
  envVar := "MLX_BASE_URL"
  apiKeyEnvVar := "MLX_API_KEY"
  prefixes := ["mlx/", "mlx:"]
  capabilities :=
    { supportsTools := false
      supportsVision := false
      supportsStreaming := true
      supportsJsonMode := true }

/-- `getProviders` from `provider-registry.ts`: the built-in provider
configurations, re-reading the environment on each call. -/
def getProviders (env : Env) : List LocalProvider :=
  [ollamaProvider env, lmstudioProvider env, vllmProvider env, mlxProvider env]

/-- `resolveProvider` from `provider-registry.ts`: the first provider one of
whose prefixes the model id starts with, together with the model id with that
prefix sliced off. -/
def resolveProvider (env : Env) (modelId : String) : Option ResolvedProvider :=
  (getProviders env).findSome? fun provider =>
    provider.prefixes.findSome? fun pre =>
      if jsStartsWith modelId pre then some ⟨provider, modelId.drop pre.length⟩
      else none

/-- Two incomparable strings cannot both be prefixes of one string. -/
theorem jsStartsWith_false_of_incomp {m p q : String} (h : jsStartsWith m p = true)
    (hpq : p.data.isPrefixOf q.data = false) (hqp : q.data.isPrefixOf p.data = false) :
    jsStartsWith m q = false := by
  by_contra hq
  rw [Bool.not_eq_false, jsStartsWith, List.isPrefixOf_iff_prefix] at hq
  rw [jsStartsWith, List.isPrefixOf_iff_prefix] at h
  rcases List.prefix_or_prefix_of_prefix h hq with h1 | h1
  · rw [← List.isPrefixOf_iff_prefix] at h1
    simp [h1] at hpq
  · rw [← List.isPrefixOf_iff_prefix] at h1
    simp [h1] at hqp

/-- C2.  A model id starting with a registered prefix of a provider resolves
to that provider with the model name obtained by removing exactly the matched
prefix from the front of the id; a model id matching no registered prefix
resolves to `none`. -/
theorem C2_resolveProvider_prefix_routing (env : Env) :
    (∀ modelId provider pre, provider ∈ getProviders env → pre ∈ provider.prefixes →
        jsStartsWith modelId pre = true →
        resolveProvider env modelId = some ⟨provider, modelId.drop pre.length⟩) ∧
    (∀ modelId, (∀ provider ∈ getProviders env, ∀ pre ∈ provider.prefixes,
        jsStartsWith modelId pre = false) →
        resolveProvider env modelId = none) := by
  constructor
  · intro modelId provider pre hp hpre h
    simp only [getProviders, List.mem_cons, List.not_mem_nil, or_false] at hp
    rcases hp with rfl | rfl | rfl | rfl
    · simp only [ollamaProvider, List.mem_cons, List.not_mem_nil, or_false] at hpre
      rcases hpre with rfl | rfl
      · simp [resolveProvider, getProviders, List.findSome?, ollamaProvider, lmstudioProvider, vllmProvider, mlxProvider, h]
      ·
        have e1 : jsStartsWith modelId "ollama/" = false :=
          jsStartsWith_false_of_incomp h (by decide) (by decide)
        simp [resolveProvider, getProviders, List.findSome?, ollamaProvider, lmstudioProvider, vllmProvider, mlxProvider, h, e1]
    · simp only [lmstudioProvider, List.mem_cons, List.not_mem_nil, or_false] at hpre
      rcases hpre with rfl | rfl | rfl | rfl
      ·
        have e1 : jsStartsWith modelId "ollama/" = false :=
          jsStartsWith_false_of_incomp h (by decide) (by decide)
        have e2 : jsStartsWith modelId "ollama:" = false :=
          jsStartsWith_false_of_incomp h (by decide) (by decide)
        simp [resolveProvider, getProviders, List.findSome?, ollamaProvider, lmstudioProvider, vllmProvider, mlxProvider, h, e1, e2]
      ·
        have e1 : jsStartsWith modelId "ollama/" = false :=
          jsStartsWith_false_of_incomp h (by decide) (by decide)
        have e2 : jsStartsWith modelId "ollama:" = false :=
          jsStartsWith_false_of_incomp h (by decide) (by decide)
        have e3 : jsStartsWith modelId "lmstudio/" = false :=
          jsStartsWith_false_of_incomp h (by decide) (by decide)
        simp [resolveProvider, getProviders, List.findSome?, ollamaProvider, lmstudioProvider, vllmProvider, mlxProvider, h, e1, e2, e3]
      ·
        have e1 : jsStartsWith modelId "ollama/" = false :=
          jsStartsWith_false_of_incomp h (by decide) (by decide)
        have e2 : jsStartsWith modelId "ollama:" = false :=
          jsStartsWith_false_of_incomp h (by decide) (by decide)
        have e3 : jsStartsWith modelId "lmstudio/" = false :=
          jsStartsWith_false_of_incomp h (by decide) (by decide)
        have e4 : jsStartsWith modelId "lmstudio:" = false :=
          jsStartsWith_false_of_incomp h (by decide) (by decide)
        simp [resolveProvider, getProviders, List.findSome?, ollamaProvider, lmstudioProvider, vllmProvider, mlxProvider, h, e1, e2, e3, e4]
      ·
        have e1 : jsStartsWith modelId "ollama/" = false :=
          jsStartsWith_false_of_incomp h (by decide) (by decide)
        have e2 : jsStartsWith modelId "ollama:" = false :=
          jsStartsWith_false_of_incomp h (by decide) (by decide)
        have e3 : jsStartsWith modelId "lmstudio/" = false :=
          jsStartsWith_false_of_incomp h (by decide) (by decide)
        have e4 : jsStartsWith modelId "lmstudio:" = false :=
          jsStartsWith_false_of_incomp h (by decide) (by decide)
        have e5 : jsStartsWith modelId "mlstudio/" = false :=
          jsStartsWith_false_of_incomp h (by decide) (by decide)
        simp [resolveProvider, getProviders, List.findSome?, ollamaProvider, lmstudioProvider, vllmProvider, mlxProvider, h, e1, e2, e3, e4, e5]
    · simp only [vllmProvider, List.mem_cons, List.not_mem_nil, or_false] at hpre
      rcases hpre with rfl | rfl
      ·
        have e1 : jsStartsWith modelId "ollama/" = false :=
          jsStartsWith_false_of_incomp h (by decide) (by decide)
        have e2 : jsStartsWith modelId "ollama:" = false :=
          jsStartsWith_false_of_incomp h (by decide) (by decide)
        have e3 : jsStartsWith modelId "lmstudio/" = false :=
          jsStartsWith_false_of_incomp h (by decide) (by decide)
        have e4 : jsStartsWith modelId "lmstudio:" = false :=
          jsStartsWith_false_of_incomp h (by decide) (by decide)
        have e5 : jsStartsWith modelId "mlstudio/" = false :=
          jsStartsWith_false_of_incomp h (by decide) (by decide)
        have e6 : jsStartsWith modelId "mlstudio:" = false :=
          jsStartsWith_false_of_incomp h (by decide) (by decide)
        simp [resolveProvider, getProviders, List.findSome?, ollamaProvider, lmstudioProvider, vllmProvider, mlxProvider, h, e1, e2, e3, e4, e5, e6]
      ·
        have e1 : jsStartsWith modelId "ollama/" = false :=
          jsStartsWith_false_of_incomp h (by decide) (by decide)
        have e2 : jsStartsWith modelId "ollama:" = false :=
          jsStartsWith_false_of_incomp h (by decide) (by decide)
        have e3 : jsStartsWith modelId "lmstudio/" = false :=
          jsStartsWith_false_of_incomp h (by decide) (by decide)
        have e4 : jsStartsWith modelId "lmstudio:" = false :=
          jsStartsWith_false_of_incomp h (by decide) (by decide)
        have e5 : jsStartsWith modelId "mlstudio/" = false :=
          jsStartsWith_false_of_incomp h (by decide) (by decide)
        have e6 : jsStartsWith modelId "mlstudio:" = false :=
          jsStartsWith_false_of_incomp h (by decide) (by decide)
        have e7 : jsStartsWith modelId "vllm/" = false :=
          jsStartsWith_false_of_incomp h (by decide) (by decide)
        simp [resolveProvider, getProviders, List.findSome?, ollamaProvider, lmstudioProvider, vllmProvider, mlxProvider, h, e1, e2, e3, e4, e5, e6, e7]
    · simp only [mlxProvider, List.mem_cons, List.not_mem_nil, or_false] at hpre
      rcases hpre with rfl | rfl
      ·
        have e1 : jsStartsWith modelId "ollama/" = false :=
          jsStartsWith_false_of_incomp h (by decide) (by decide)
        have e2 : jsStartsWith modelId "ollama:" = false :=
          jsStartsWith_false_of_incomp h (by decide) (by decide)
        have e3 : jsStartsWith modelId "lmstudio/" = false :=
          jsStartsWith_false_of_incomp h (by decide) (by decide)
        have e4 : jsStartsWith modelId "lmstudio:" = false :=
          jsStartsWith_false_of_incomp h (by decide) (by decide)
        have e5 : jsStartsWith modelId "mlstudio/" = false :=
          jsStartsWith_false_of_incomp h (by decide) (by decide)
        have e6 : jsStartsWith modelId "mlstudio:" = false :=
          jsStartsWith_false_of_incomp h (by decide) (by decide)
        have e7 : jsStartsWith modelId "vllm/" = false :=
          jsStartsWith_false_of_incomp h (by decide) (by decide)
        have e8 : jsStartsWith modelId "vllm:" = false :=
          jsStartsWith_false_of_incomp h (by decide) (by decide)
        simp [resolveProvider, getProviders, List.findSome?, ollamaProvider, lmstudioProvider, vllmProvider, mlxProvider, h, e1, e2, e3, e4, e5, e6, e7, e8]
      ·
        have e1 : jsStartsWith modelId "ollama/" = false :=
          jsStartsWith_false_of_incomp h (by decide) (by decide)
        have e2 : jsStartsWith modelId "ollama:" = false :=
          jsStartsWith_false_of_incomp h (by decide) (by decide)
        have e3 : jsStartsWith modelId "lmstudio/" = false :=
          jsStartsWith_false_of_incomp h (by decide) (by decide)
        have e4 : jsStartsWith modelId "lmstudio:" = false :=
          jsStartsWith_false_of_incomp h (by decide) (by decide)
        have e5 : jsStartsWith modelId "mlstudio/" = false :=
          jsStartsWith_false_of_incomp h (by decide) (by decide)
        have e6 : jsStartsWith modelId "mlstudio:" = false :=
          jsStartsWith_false_of_incomp h (by decide) (by decide)
        have e7 : jsStartsWith modelId "vllm/" = false :=
          jsStartsWith_false_of_incomp h (by decide) (by decide)
        have e8 : jsStartsWith modelId "vllm:" = false :=
          jsStartsWith_false_of_incomp h (by decide) (by decide)
        have e9 : jsStartsWith modelId "mlx/" = false :=
          jsStartsWith_false_of_incomp h (by decide) (by decide)
        simp [resolveProvider, getProviders, List.findSome?, ollamaProvider, lmstudioProvider, vllmProvider, mlxProvider, h, e1, e2, e3, e4, e5, e6, e7, e8, e9]
  · intro modelId hall
    have f1 : jsStartsWith modelId "ollama/" = false :=
      hall (ollamaProvider env) (by simp [getProviders]) _ (by simp [ollamaProvider])
    have f2 : jsStartsWith modelId "ollama:" = false :=
      hall (ollamaProvider env) (by simp [getProviders]) _ (by simp [ollamaProvider])
    have f3 : jsStartsWith modelId "lmstudio/" = false :=
      hall (lmstudioProvider env) (by simp [getProviders]) _ (by simp [lmstudioProvider])
    have f4 : jsStartsWith modelId "lmstudio:" = false :=
      hall (lmstudioProvider env) (by simp [getProviders]) _ (by simp [lmstudioProvider])
    have f5 : jsStartsWith modelId "mlstudio/" = false :=
      hall (lmstudioProvider env) (by simp [getProviders]) _ (by simp [lmstudioProvider])
    have f6 : jsStartsWith modelId "mlstudio:" = false :=
      hall (lmstudioProvider env) (by simp [getProviders]) _ (by simp [lmstudioProvider])
    have f7 : jsStartsWith modelId "vllm/" = false :=
      hall (vllmProvider env) (by simp [getProviders]) _ (by simp [vllmProvider])
    have f8 : jsStartsWith modelId "vllm:" = false :=
      hall (vllmProvider env) (by simp [getProviders]) _ (by simp [vllmProvider])
    have f9 : jsStartsWith modelId "mlx/" = false :=
      hall (mlxProvider env) (by simp [getProviders]) _ (by simp [mlxProvider])
    have f10 : jsStartsWith modelId "mlx:" = false :=
      hall (mlxProvider env) (by simp [getProviders]) _ (by simp [mlxProvider])
    simp [resolveProvider, getProviders, List.findSome?, ollamaProvider, lmstudioProvider, vllmProvider, mlxProvider, f1, f2, f3, f4, f5, f6, f7, f8, f9, f10]

/-- The empty environment: every provider keeps its default base URL. -/
def env0 : Env := {}

/-- Witness for C2 at concrete inputs. -/
theorem C2_resolveProvider_prefix_routing_witness :
    resolveProvider env0 "ollama/llama3.2" = some ⟨ollamaProvider env0, "llama3.2"⟩ ∧
    resolveProvider env0 "gpt-4o" = none := by
  constructor
  · have h := (C2_resolveProvider_prefix_routing env0).1 "ollama/llama3.2"
      (ollamaProvider env0) "ollama/" (by simp [getProviders]) (by simp [ollamaProvider])
      (by decide)
    simpa using h
  · exact (C2_resolveProvider_prefix_routing env0).2 "gpt-4o" (by decide)

/-! ## The local provider handler: outbound payload construction -/

/-- The `tool_choice` field of the transformed Anchor request as the handler
destructures it: `const { type, name } = claudeRequest.tool_choice`. -/
structure ToolChoice where
  type : String
  name : Option String := none
  deriving Repr, DecidableEq

/-- JavaScript truthiness of an optional string: unset and empty are falsy. -/
def truthyS : Option String → Bool
  | some s => !(s == "")
  | none => false

/-- The slice of the transformed Anchor request (`claudeRequest` in
`LocalProviderHandler.handle`) that payload construction reads.
`temperature` is a JavaScript number, modelled as a rational; `stream` is the
stream flag the caller requested (the handler never reads it). -/
structure ClaudeRequest where
  max_tokens : Nat
  temperature : Option ℚ := none
  tool_choice : Option ToolChoice := none
  stream : Bool := true

/-- The `stream_options` object of the outbound payload. -/
structure StreamOptions where
  include_usage : Bool
  deriving Repr, DecidableEq

/-- The outbound `tool_choice`: either a pass-through string ("auto"/"none")
or the `{type: "function", function: {name}}` object. -/
inductive ToolChoiceOut where
  | str (s : String)
  | function (name : String)
  deriving Repr, DecidableEq

/-- The outbound OpenAI-compatible payload built by
`LocalProviderHandler.handle` (lines 188-206), polymorphic in the converted
message and tool representations (their converters live outside the
handler). -/
structure OpenAIPayload (Msg Tool : Type) where
  model : String
  messages : List Msg
  temperature : ℚ
  stream : Bool
  max_tokens : Nat
  tools : Option (List Tool)
  stream_options : Option StreamOptions
  tool_choice : Option ToolChoiceOut

/-- The tool-choice mapping of `LocalProviderHandler.handle` (lines 199-206):
the field starts unset and is assigned only when the request has a
`tool_choice` and the gated tool list is nonempty. -/
def toolChoiceOut (finalToolsLen : Nat) (tc? : Option ToolChoice) : Option ToolChoiceOut :=
  match tc? with
  | none => none
  | some tc =>
    if finalToolsLen > 0 then
      if tc.type == "tool" && truthyS tc.name then
        some (ToolChoiceOut.function (tc.name.getD ""))
      else if tc.type == "auto" || tc.type == "none" then
        some (ToolChoiceOut.str tc.type)
      else none
    else none

/-- Payload construction from `LocalProviderHandler.handle`: capability
gating of tools (line 182), the field assignments of lines 188-196, and the
tool-choice mapping of lines 199-206 (the source assigns the `tool_choice`
field after building the record; here the final field value is computed by
`toolChoiceOut`). -/
def buildOpenAIPayload {Msg Tool : Type} (provider : LocalProvider) (target : String)
    (messages : List Msg) (tools : List Tool) (req : ClaudeRequest) :
    OpenAIPayload Msg Tool :=
  let finalTools := if provider.capabilities.supportsTools then tools else []
  { model := target
    messages := messages
    temperature := req.temperature.getD 1
    stream := provider.capabilities.supportsStreaming
    max_tokens := req.max_tokens
    tools := if finalTools.length > 0 then some finalTools else none
    stream_options :=
      if provider.capabilities.supportsStreaming then some ⟨true⟩ else none
    tool_choice := toolChoiceOut finalTools.length req.tool_choice }

/-! ## The local provider handler: error mapping -/

/-- The Anchor error types the handler emits. -/
inductive ErrType where
  | model_not_found
  | capability_error
  | connection_error
  | api_error
  deriving Repr, DecidableEq

/-- An error reply `{error: {type, message}}` with its HTTP status
(`LocalProviderHandler.errorResponse`; the status defaults to 503). -/
structure ErrResp where
  type : ErrType
  message : String
  status : Nat
  deriving Repr, DecidableEq

/-- The model-not-found test of `handleErrorResponse` (line 273). -/
def isModelNotFoundMsg (errorMsg : String) : Bool :=
  jsIncludes errorMsg "model" &&
    (jsIncludes errorMsg "not found" || jsIncludes errorMsg "does not exist")

/-- The tools-unsupported test of `handleErrorResponse` (line 282); JavaScript
`||` binds looser than `&&`. -/
def isToolsUnsupportedMsg (errorMsg : String) : Bool :=
  jsIncludes errorMsg "does not support tools" ||
    (jsIncludes errorMsg "tool" && jsIncludes errorMsg "not supported")

/-- `LocalProviderHandler.getModelPullHint`. -/
def getModelPullHint (provider : LocalProvider) (modelName : String) : String :=
  if provider.name = "ollama" then "Pull it with: ollama pull " ++ modelName
  else "Make sure the model is available on the server."

/-- `LocalProviderHandler.getConnectionErrorMessage`. -/
def getConnectionErrorMessage (provider : LocalProvider) : String :=
  if provider.name = "ollama" then
    "Cannot connect to Ollama at " ++ provider.baseUrl ++
      ". Make sure Ollama is running with: ollama serve"
  else if provider.name = "lmstudio" then
    "Cannot connect to LM Studio at " ++ provider.baseUrl ++
      ". Make sure LM Studio server is running."
  else if provider.name = "vllm" then
    "Cannot connect to vLLM at " ++ provider.baseUrl ++
      ". Make sure vLLM server is running."
  else
    "Cannot connect to " ++ provider.name ++ " at " ++ provider.baseUrl ++
      ". Make sure the server is running."

/-- The capability-error message of `handleErrorResponse` (line 286). -/
def capabilityErrorMessage (modelName : String) : String :=
  "Model '" ++ modelName ++ "' does not support tool/function calling. " ++
    "Claude Code requires tool support for most operations. " ++
    "Try a model that supports tools (e.g., llama3.2, mistral, qwen2.5)."

/-- `LocalProviderHandler.handleErrorResponse`.  `parsedMsg` is the outcome
of `JSON.parse` and the `parsed.error?.message || parsed.error || errorBody`
chain: `some errorMsg` when the body parsed (with `errorMsg` the extracted
string), `none` when `JSON.parse` threw, in which case the catch arm replies
`api_error` with the raw body. -/
def handleErrorResponse (provider : LocalProvider) (modelName : String) (status : Nat)
    (parsedMsg : Option String) (errorBody : String) : ErrResp :=
  match parsedMsg with
  | none => ⟨ErrType.api_error, errorBody, status⟩
  | some errorMsg =>
    if isModelNotFoundMsg errorMsg then
      ⟨ErrType.model_not_found,
        "Model '" ++ modelName ++ "' not found. " ++ getModelPullHint provider modelName,
        503⟩
    else if isToolsUnsupportedMsg errorMsg then
      ⟨ErrType.capability_error, capabilityErrorMessage modelName, 400⟩
    else ⟨ErrType.api_error, errorMsg, status⟩

/-- How the backend fetch of `LocalProviderHandler.handle` ended. -/
inductive FetchOutcome where
  | success
  | httpError (status : Nat) (parsedMsg : Option String) (body : String)
  | connRefused
  deriving Repr, DecidableEq

/-- The error reply `handle` produces for a failed backend fetch: a non-2xx
response goes through `handleErrorResponse` (line 235); a fetch that threw
`ECONNREFUSED` becomes a connection error (lines 259-261); a 2xx response
produces no error. -/
def respondToFetch (provider : LocalProvider) (modelName : String) :
    FetchOutcome → Option ErrResp
  | FetchOutcome.success => none
  | FetchOutcome.httpError status parsedMsg body =>
      some (handleErrorResponse provider modelName status parsedMsg body)
  | FetchOutcome.connRefused =>
      some ⟨ErrType.connection_error, getConnectionErrorMessage provider, 503⟩

/-! ## Context window discovery -/

/-- The slice of an ollama `/api/show` reply that `fetchContextWindow` reads:
`ctxInfo` is a truthy numeric `model_info["general.context_length"]` value and
`numCtx` the number matched by `/num_ctx\x5cs+(\x5cd+)/` in `parameters`, when
present. -/
structure ShowResponse where
  ctxInfo : Option Nat
  numCtx : Option Nat
  deriving Repr, DecidableEq

/-- `LocalProviderHandler.fetchContextWindow`: non-ollama providers return at
once, keeping `cur`; a failed or non-OK probe (`resp = none`) keeps `cur`; a
zero `general.context_length` is falsy in JavaScript, so it falls through to
the `num_ctx` match. -/
def fetchContextWindow (provider : LocalProvider) (cur : Nat)
    (resp : Option ShowResponse) : Nat :=
  if provider.name ≠ "ollama" then cur
  else
    match resp with
    | none => cur
    | some data =>
      match data.ctxInfo with
      | some v =>
        if v ≠ 0 then v
        else
          match data.numCtx with
          | some w => w
          | none => 8192
      | none =>
        match data.numCtx with
        | some w => w
        | none => 8192

/-! ## Claims C1, C3, C5, C7, C8 -/

/-- C1.  When the provider descriptor has `supportsTools = false`, the
outbound payload carries no `tools` field, whatever tools the Anchor request
supplied; and a parsed backend error message that indicates tools are
unsupported (and is not a model-not-found message, which the handler tests
first) is answered with an error of type `capability_error`. -/
theorem C1_capability_gating {Msg Tool : Type} (provider : LocalProvider)
    (target : String) (messages : List Msg) (tools : List Tool)
    (req : ClaudeRequest) (modelName : String)
    (hns : provider.capabilities.supportsTools = false) :
    (buildOpenAIPayload provider target messages tools req).tools = none ∧
    (∀ status errorMsg body, isToolsUnsupportedMsg errorMsg = true →
      isModelNotFoundMsg errorMsg = false →
      (handleErrorResponse provider modelName status (some errorMsg) body).type =
        ErrType.capability_error) := by
  constructor
  · simp [buildOpenAIPayload, hns]
  · intro status errorMsg body htools hmnf
    simp [handleErrorResponse, hmnf, htools]

/-- Witness for C1: the mlx provider with a nonempty tool list, and a
concrete tools-unsupported error body. -/
theorem C1_capability_gating_witness :
    (buildOpenAIPayload (mlxProvider env0) "qwen2.5" ([] : List Unit)
        ([(), ()] : List Unit) { max_tokens := 64 }).tools = none ∧
    (handleErrorResponse (mlxProvider env0) "qwen2.5" 400
        (some "registered model does not support tools") "").type =
      ErrType.capability_error := by
  have h := @C1_capability_gating Unit Unit (mlxProvider env0)
    "qwen2.5" [] [(), ()] { max_tokens := 64 } "qwen2.5" (by decide)
  exact ⟨h.1, h.2 400 "registered model does not support tools" "" (by decide) (by decide)⟩

/-- C3.  The handler's reply to a failed backend interaction: a parsed error
message with model-not-found text gives `model_not_found` with a pull hint
(`ollama pull <model>` for ollama); tools-unsupported text gives
`capability_error`; a connection-refused failure gives `connection_error`;
any other non-2xx body gives `api_error` carrying the upstream HTTP status
(the two message tests are applied in that order, and a body that does not
parse as JSON also maps to `api_error` with the upstream status). -/
theorem C3_error_mapping (provider : LocalProvider) (modelName : String) :
    (∀ status errorMsg body, isModelNotFoundMsg errorMsg = true →
       respondToFetch provider modelName (FetchOutcome.httpError status (some errorMsg) body) =
         some ⟨ErrType.model_not_found,
           "Model '" ++ modelName ++ "' not found. " ++ getModelPullHint provider modelName,
           503⟩) ∧
    (provider.name = "ollama" →
       getModelPullHint provider modelName = "Pull it with: ollama pull " ++ modelName) ∧
    (∀ status errorMsg body, isModelNotFoundMsg errorMsg = false →
       isToolsUnsupportedMsg errorMsg = true →
       respondToFetch provider modelName (FetchOutcome.httpError status (some errorMsg) body) =
         some ⟨ErrType.capability_error, capabilityErrorMessage modelName, 400⟩) ∧
    (respondToFetch provider modelName FetchOutcome.connRefused =
       some ⟨ErrType.connection_error, getConnectionErrorMessage provider, 503⟩) ∧
    (∀ status errorMsg body, isModelNotFoundMsg errorMsg = false →
       isToolsUnsupportedMsg errorMsg = false →
       respondToFetch provider modelName (FetchOutcome.httpError status (some errorMsg) body) =
         some ⟨ErrType.api_error, errorMsg, status⟩) ∧
    (∀ status body,
       respondToFetch provider modelName (FetchOutcome.httpError status none body) =
         some ⟨ErrType.api_error, body, status⟩) := by
  refine ⟨?_, ?_, ?_, ?_, ?_, ?_⟩
  · intro status errorMsg body hmnf
    simp [respondToFetch, handleErrorResponse, hmnf]
  · intro hname
    simp [getModelPullHint, hname]
  · intro status errorMsg body hmnf htools
    simp [respondToFetch, handleErrorResponse, hmnf, htools]
  · rfl
  · intro status errorMsg body hmnf htools
    simp [respondToFetch, handleErrorResponse, hmnf, htools]
  · intro status body
    rfl

/-- Witness for C3: the ollama provider at its default base URL, a concrete
model-not-found body, a tools-unsupported body, and an unrecognized body. -/
theorem C3_error_mapping_witness :
    respondToFetch (ollamaProvider env0) "llama3.2"
        (FetchOutcome.httpError 404 (some "model 'llama3.2' not found") "") =
      some ⟨ErrType.model_not_found,
        "Model 'llama3.2' not found. Pull it with: ollama pull llama3.2", 503⟩ ∧
    respondToFetch (ollamaProvider env0) "llama3.2"
        (FetchOutcome.httpError 400 (some "llama3.2 does not support tools") "") =
      some ⟨ErrType.capability_error, capabilityErrorMessage "llama3.2", 400⟩ ∧
    respondToFetch (ollamaProvider env0) "llama3.2" FetchOutcome.connRefused =
      some ⟨ErrType.connection_error, getConnectionErrorMessage (ollamaProvider env0), 503⟩ ∧
    respondToFetch (ollamaProvider env0) "llama3.2"
        (FetchOutcome.httpError 500 (some "boom") "") =
      some ⟨ErrType.api_error, "boom", 500⟩ := by
  have h := C3_error_mapping (ollamaProvider env0) "llama3.2"
  refine ⟨?_, ?_, h.2.2.2.1, ?_⟩
  · have e := h.1 404 "model 'llama3.2' not found" "" (by decide)
    rw [h.2.1 (by decide)] at e
    exact e.trans (by decide)
  · exact h.2.2.1 400 "llama3.2 does not support tools" "" (by decide) (by decide)
  · exact h.2.2.2.2.1 500 "boom" "" (by decide) (by decide)

/-- Counterexample to C5 as stated: the outbound `stream` flag is not what
the caller requested.  With the ollama provider (whose descriptor has
`supportsStreaming = true`) and an Anchor request whose `stream` is `false`,
the outbound payload's `stream` is `true`. -/
theorem C5_counterexample :
    ¬ ((buildOpenAIPayload (ollamaProvider env0) "llama3.2" ([] : List Unit)
          ([] : List Unit) { max_tokens := 64, stream := false }).stream =
        ({ max_tokens := 64, stream := false } : ClaudeRequest).stream) := by
  simp [buildOpenAIPayload, ollamaProvider]

/-- C5 as amended.  `max_tokens` passes through unchanged; `temperature`
is the request's temperature when present and 1 when absent; the outbound
`stream` flag equals the provider descriptor's `supportsStreaming`
capability, regardless of the stream value the caller requested. -/
theorem C5_parameter_policy {Msg Tool : Type} (provider : LocalProvider)
    (target : String) (messages : List Msg) (tools : List Tool)
    (req : ClaudeRequest) :
    (buildOpenAIPayload provider target messages tools req).max_tokens =
      req.max_tokens ∧
    (∀ t, req.temperature = some t →
      (buildOpenAIPayload provider target messages tools req).temperature = t) ∧
    (req.temperature = none →
      (buildOpenAIPayload provider target messages tools req).temperature = 1) ∧
    (buildOpenAIPayload provider target messages tools req).stream =
      provider.capabilities.supportsStreaming := by
  refine ⟨?_, ?_, ?_, ?_⟩
  · simp [buildOpenAIPayload]
  · intro t ht
    simp [buildOpenAIPayload, ht]
  · intro ht
    simp [buildOpenAIPayload, ht]
  · simp [buildOpenAIPayload]

/-- Witness for C5 as amended, at a concrete request with a temperature and
at one without. -/
theorem C5_parameter_policy_witness :
    (buildOpenAIPayload (ollamaProvider env0) "llama3.2" ([] : List Unit)
        ([] : List Unit) { max_tokens := 77, temperature := some (1 / 2) }).max_tokens = 77 ∧
    (buildOpenAIPayload (ollamaProvider env0) "llama3.2" ([] : List Unit)
        ([] : List Unit) { max_tokens := 77, temperature := some (1 / 2) }).temperature = 1 / 2 ∧
    (buildOpenAIPayload (ollamaProvider env0) "llama3.2" ([] : List Unit)
        ([] : List Unit) { max_tokens := 77 }).temperature = 1 ∧
    (buildOpenAIPayload (ollamaProvider env0) "llama3.2" ([] : List Unit)
        ([] : List Unit) { max_tokens := 77 }).stream = true := by
  have h1 := @C5_parameter_policy Unit Unit (ollamaProvider env0)
    "llama3.2" [] [] { max_tokens := 77, temperature := some (1 / 2) }
  have h2 := @C5_parameter_policy Unit Unit (ollamaProvider env0)
    "llama3.2" [] [] { max_tokens := 77 }
  exact ⟨h1.1, h1.2.1 (1 / 2) rfl, h2.2.2.1 rfl, h2.2.2.2⟩

/-- C7.  Context-window discovery: providers other than ollama keep the
default 8192; for ollama the window is the truthy
`model_info["general.context_length"]` value when present, else the
`num_ctx` parameter match, and stays 8192 when the probe fails or neither
value is present. -/
theorem C7_context_window (provider : LocalProvider) :
    (provider.name ≠ "ollama" →
       ∀ resp, fetchContextWindow provider 8192 resp = 8192) ∧
    (provider.name = "ollama" →
       fetchContextWindow provider 8192 none = 8192 ∧
       (∀ v numCtx, v ≠ 0 →
         fetchContextWindow provider 8192 (some ⟨some v, numCtx⟩) = v) ∧
       (∀ w, fetchContextWindow provider 8192 (some ⟨none, some w⟩) = w) ∧
       fetchContextWindow provider 8192 (some ⟨none, none⟩) = 8192) := by
  constructor
  · intro hname resp
    simp [fetchContextWindow, hname]
  · intro hname
    refine ⟨by simp [fetchContextWindow, hname], ?_, ?_, ?_⟩
    · intro v numCtx hv
      simp [fetchContextWindow, hname, hv]
    · intro w
      simp [fetchContextWindow, hname]
    · simp [fetchContextWindow, hname]

/-- Witness for C7: lmstudio keeps the default even when a reply is seen;
ollama picks up `general.context_length`, falls back to `num_ctx`, and keeps
the default when the probe fails. -/
theorem C7_context_window_witness :
    fetchContextWindow (lmstudioProvider env0) 8192 (some ⟨some 32768, none⟩) = 8192 ∧
    fetchContextWindow (ollamaProvider env0) 8192 (some ⟨some 32768, none⟩) = 32768 ∧
    fetchContextWindow (ollamaProvider env0) 8192 (some ⟨none, some 4096⟩) = 4096 ∧
    fetchContextWindow (ollamaProvider env0) 8192 none = 8192 := by
  refine ⟨(C7_context_window (lmstudioProvider env0)).1 (by decide) _, ?_, ?_, ?_⟩
  · exact ((C7_context_window (ollamaProvider env0)).2 (by decide)).2.1 32768 none (by decide)
  · exact ((C7_context_window (ollamaProvider env0)).2 (by decide)).2.2.1 4096
  · exact ((C7_context_window (ollamaProvider env0)).2 (by decide)).1

/-- C8.  Tool-choice mapping: with a nonempty outbound tool list, a
`tool_choice` of type "tool" with a (truthy) name becomes
`{type: "function", function: {name}}` and "auto"/"none" pass through as
strings; with an empty outbound tool list — because the provider lacks tool
support or the request declared no tools — the outbound payload carries no
`tool_choice` at all. -/
theorem C8_tool_choice_mapping {Msg Tool : Type} (provider : LocalProvider)
    (target : String) (messages : List Msg) (tools : List Tool)
    (req : ClaudeRequest) :
    (∀ tc, req.tool_choice = some tc →
      (if provider.capabilities.supportsTools then tools else []) ≠ [] →
      (∀ n, tc.type = "tool" → tc.name = some n → n ≠ "" →
        (buildOpenAIPayload provider target messages tools req).tool_choice =
          some (ToolChoiceOut.function n)) ∧
      (tc.type = "auto" →
        (buildOpenAIPayload provider target messages tools req).tool_choice =
          some (ToolChoiceOut.str "auto")) ∧
      (tc.type = "none" →
        (buildOpenAIPayload provider target messages tools req).tool_choice =
          some (ToolChoiceOut.str "none"))) ∧
    ((provider.capabilities.supportsTools = false ∨ tools = []) →
      (buildOpenAIPayload provider target messages tools req).tool_choice = none) := by
  constructor
  · intro tc htc hft
    have hlen : 0 < (if provider.capabilities.supportsTools then tools else []).length :=
      List.length_pos.mpr hft
    refine ⟨?_, ?_, ?_⟩
    · intro n hty hname hne
      simp [buildOpenAIPayload, toolChoiceOut, htc, hlen, hty, hname, truthyS, hne]
    · intro hty
      simp [buildOpenAIPayload, toolChoiceOut, htc, hlen, hty, truthyS]
    · intro hty
      simp [buildOpenAIPayload, toolChoiceOut, htc, hlen, hty, truthyS]
  · intro hempty
    have hft : (if provider.capabilities.supportsTools then tools else []) = ([] : List Tool) := by
      rcases hempty with h | h <;> simp [h]
    cases htc : req.tool_choice <;>
      simp [buildOpenAIPayload, toolChoiceOut, htc, hft]

/-- Witness for C8: a named tool choice, the two pass-through strings, and
the empty-tools case, all at concrete inputs. -/
theorem C8_tool_choice_mapping_witness :
    (buildOpenAIPayload (ollamaProvider env0) "llama3.2" ([] : List Unit)
        ([()] : List Unit)
        { max_tokens := 64, tool_choice := some ⟨"tool", some "Read"⟩ }).tool_choice =
      some (ToolChoiceOut.function "Read") ∧
    (buildOpenAIPayload (ollamaProvider env0) "llama3.2" ([] : List Unit)
        ([()] : List Unit)
        { max_tokens := 64, tool_choice := some ⟨"auto", none⟩ }).tool_choice =
      some (ToolChoiceOut.str "auto") ∧
    (buildOpenAIPayload (mlxProvider env0) "qwen2.5" ([] : List Unit)
        ([()] : List Unit)
        { max_tokens := 64, tool_choice := some ⟨"auto", none⟩ }).tool_choice =
      none := by
  refine ⟨?_, ?_, ?_⟩
  · exact ((@C8_tool_choice_mapping Unit Unit (ollamaProvider env0)
      "llama3.2" [] [()] { max_tokens := 64, tool_choice := some ⟨"tool", some "Read"⟩ }).1
      ⟨"tool", some "Read"⟩ rfl (by decide)).1 "Read" rfl rfl (by decide)
  · exact ((@C8_tool_choice_mapping Unit Unit (ollamaProvider env0)
      "llama3.2" [] [()] { max_tokens := 64, tool_choice := some ⟨"auto", none⟩ }).1
      ⟨"auto", none⟩ rfl (by decide)).2.1 rfl
  · exact (@C8_tool_choice_mapping Unit Unit (mlxProvider env0)
      "qwen2.5" [] [()] { max_tokens := 64, tool_choice := some ⟨"auto", none⟩ }).2
      (Or.inl (by decide))

/-! ## Health gating (C4) -/

/-- The handler's memoized health state. -/
structure HealthState where
  healthChecked : Bool
  isHealthy : Bool
  deriving Repr, DecidableEq

/-- How one health-probe fetch ended: OK response, non-OK response, or a
thrown error (timeout, refused connection, ...). -/
inductive ProbeResult where
  | ok
  | notOk
  | threw
  deriving Repr, DecidableEq

/-- `LocalProviderHandler.checkHealth`: the memoized result when already
checked; otherwise GET `/api/tags` first and GET `/v1/models` only as the
catch-arm fallback when the first fetch threw (a non-OK `/api/tags` response
falls through to the failure exit without a second probe).  Returns the new
state, the boolean result, and the probe paths issued, in order. -/
def checkHealth (st : HealthState) (tags models : ProbeResult) :
    HealthState × Bool × List String :=
  if st.healthChecked then (st, st.isHealthy, [])
  else
    match tags with
    | ProbeResult.ok => (⟨true, true⟩, true, ["/api/tags"])
    | ProbeResult.notOk => (⟨true, false⟩, false, ["/api/tags"])
    | ProbeResult.threw =>
      match models with
      | ProbeResult.ok => (⟨true, true⟩, true, ["/api/tags", "/v1/models"])
      | _ => (⟨true, false⟩, false, ["/api/tags", "/v1/models"])

/-- What `handle` does before contacting the backend: return an error at the
gate, or proceed to POST the chat request. -/
inductive HandleStep where
  | gateError (e : ErrResp)
  | chatRequest
  deriving Repr, DecidableEq

/-- The health gate at the top of `LocalProviderHandler.handle` (lines
166-174): only a request arriving with `healthChecked` unset runs
`checkHealth`; an unhealthy result is answered with a `connection_error`
before any chat request is sent. -/
def handleDispatch (provider : LocalProvider) (st : HealthState)
    (tags models : ProbeResult) : HealthState × HandleStep × List String :=
  if st.healthChecked then (st, HandleStep.chatRequest, [])
  else
    match checkHealth st tags models with
    | (st2, healthy, probes) =>
      if healthy then (st2, HandleStep.chatRequest, probes)
      else
        (st2,
         HandleStep.gateError
           ⟨ErrType.connection_error, getConnectionErrorMessage provider, 503⟩,
         probes)

/-- A middle factor of a concatenation is included in it. -/
theorem jsIncludes_append_middle (a b c : String) :
    jsIncludes (a ++ b ++ c) b = true := by
  simp only [jsIncludes, decide_eq_true_eq]
  exact ⟨a.data, c.data, by simp [String.data_append]⟩

/-- Inclusion in the left factor extends to the concatenation. -/
theorem jsIncludes_append_left (a b pat : String) (h : jsIncludes a pat = true) :
    jsIncludes (a ++ b) pat = true := by
  simp only [jsIncludes, decide_eq_true_eq] at h ⊢
  rcases h with ⟨s, t, hst⟩
  refine ⟨s, t ++ b.data, ?_⟩
  simp [String.data_append, ← hst]

/-- Inclusion in the right factor extends to the concatenation. -/
theorem jsIncludes_append_right (a b pat : String) (h : jsIncludes b pat = true) :
    jsIncludes (a ++ b) pat = true := by
  simp only [jsIncludes, decide_eq_true_eq] at h ⊢
  rcases h with ⟨s, t, hst⟩
  refine ⟨a.data ++ s, t, ?_⟩
  simp [String.data_append, ← hst]

/-- Modelled from the spec: the canonical start command of each registered
local provider (the health-gate sentence's "its canonical start command").
The repository itself shows a command only for ollama, in its connection
message (`ollama serve`); vLLM's OpenAI-compatible server is canonically
started with `vllm serve` and LM Studio's headless server with
`lms server start`. -/
def canonicalStartCommand (name : String) : String :=
  if name = "ollama" then "ollama serve"
  else if name = "vllm" then "vllm serve"
  else if name = "lmstudio" then "lms server start"
  else ""

/-- C4 as amended.  First request: `/api/tags` is probed first and
`/v1/models` only as fallback after a thrown fetch; a failed probe is
answered with a `connection_error` built from `getConnectionErrorMessage` —
a message that names the provider and its base URL, and for ollama only also
its canonical start command (`ollama serve`); the lmstudio and vllm messages
instead instruct that the server be running — and no chat request is sent.
A request arriving with `healthChecked` set issues no probe and
`checkHealth` returns the memoized result. -/
theorem C4_health_gate (provider : LocalProvider) :
    (∀ models,
      handleDispatch provider ⟨false, false⟩ ProbeResult.notOk models =
        (⟨true, false⟩,
         HandleStep.gateError
           ⟨ErrType.connection_error, getConnectionErrorMessage provider, 503⟩,
         ["/api/tags"])) ∧
    (∀ models, models ≠ ProbeResult.ok →
      handleDispatch provider ⟨false, false⟩ ProbeResult.threw models =
        (⟨true, false⟩,
         HandleStep.gateError
           ⟨ErrType.connection_error, getConnectionErrorMessage provider, 503⟩,
         ["/api/tags", "/v1/models"])) ∧
    (∀ models,
      handleDispatch provider ⟨false, false⟩ ProbeResult.ok models =
        (⟨true, true⟩, HandleStep.chatRequest, ["/api/tags"])) ∧
    (handleDispatch provider ⟨false, false⟩ ProbeResult.threw ProbeResult.ok =
        (⟨true, true⟩, HandleStep.chatRequest, ["/api/tags", "/v1/models"])) ∧
    (jsIncludes (getConnectionErrorMessage provider) provider.baseUrl = true) ∧
    (provider.name = "ollama" →
      getConnectionErrorMessage provider =
        "Cannot connect to Ollama at " ++ provider.baseUrl ++
          ". Make sure Ollama is running with: ollama serve" ∧
      jsIncludes (getConnectionErrorMessage provider) "Ollama" = true ∧
      jsIncludes (getConnectionErrorMessage provider) "ollama serve" = true) ∧
    (provider.name = "lmstudio" →
      getConnectionErrorMessage provider =
        "Cannot connect to LM Studio at " ++ provider.baseUrl ++
          ". Make sure LM Studio server is running.") ∧
    (provider.name = "vllm" →
      getConnectionErrorMessage provider =
        "Cannot connect to vLLM at " ++ provider.baseUrl ++
          ". Make sure vLLM server is running.") ∧
    (∀ st tags models, st.healthChecked = true →
      checkHealth st tags models = (st, st.isHealthy, []) ∧
      handleDispatch provider st tags models = (st, HandleStep.chatRequest, [])) := by
  refine ⟨?_, ?_, ?_, ?_, ?_, ?_, ?_, ?_, ?_⟩
  · intro models
    simp [handleDispatch, checkHealth]
  · intro models hm
    cases models with
    | ok => exact absurd rfl hm
    | notOk => simp [handleDispatch, checkHealth]
    | threw => simp [handleDispatch, checkHealth]
  · intro models
    simp [handleDispatch, checkHealth]
  · simp [handleDispatch, checkHealth]
  · unfold getConnectionErrorMessage
    split
    · exact jsIncludes_append_middle _ _ _
    · split
      · exact jsIncludes_append_middle _ _ _
      · split
        · exact jsIncludes_append_middle _ _ _
        · exact jsIncludes_append_middle _ _ _
  · intro hname
    refine ⟨by simp [getConnectionErrorMessage, hname], ?_, ?_⟩
    · rw [getConnectionErrorMessage, if_pos hname]
      exact jsIncludes_append_left _ _ _ (jsIncludes_append_left _ _ _ (by decide))
    · rw [getConnectionErrorMessage, if_pos hname]
      exact jsIncludes_append_right _ _ _ (by decide)
  · intro hname
    have hne : provider.name ≠ "ollama" := by
      rw [hname]
      decide
    simp [getConnectionErrorMessage, hname, hne]
  · intro hname
    have hne : provider.name ≠ "ollama" := by
      rw [hname]
      decide
    have hne2 : provider.name ≠ "lmstudio" := by
      rw [hname]
      decide
    simp [getConnectionErrorMessage, hname, hne, hne2]
  · intro st tags models hst
    constructor
    · simp [checkHealth, hst]
    · simp [handleDispatch, hst]

/-- Witness for C4: the ollama provider at its default base URL, a fully
failed probe pair, and a memoized second request. -/
theorem C4_health_gate_witness :
    handleDispatch (ollamaProvider env0) ⟨false, false⟩ ProbeResult.threw ProbeResult.threw =
      (⟨true, false⟩,
       HandleStep.gateError
         ⟨ErrType.connection_error, getConnectionErrorMessage (ollamaProvider env0), 503⟩,
       ["/api/tags", "/v1/models"]) ∧
    jsIncludes (getConnectionErrorMessage (ollamaProvider env0)) "ollama serve" = true ∧
    checkHealth ⟨true, false⟩ ProbeResult.ok ProbeResult.ok = (⟨true, false⟩, false, []) ∧
    handleDispatch (ollamaProvider env0) ⟨true, false⟩ ProbeResult.ok ProbeResult.ok =
      (⟨true, false⟩, HandleStep.chatRequest, []) := by
  have h := C4_health_gate (ollamaProvider env0)
  refine ⟨h.2.1 ProbeResult.threw (by decide), ?_, ?_, ?_⟩
  · exact (h.2.2.2.2.2.1 rfl).2.2
  · exact (h.2.2.2.2.2.2.2.2 ⟨true, false⟩ ProbeResult.ok ProbeResult.ok rfl).1
  · exact (h.2.2.2.2.2.2.2.2 ⟨true, false⟩ ProbeResult.ok ProbeResult.ok rfl).2

set_option maxRecDepth 4096 in
/-- Counterexample to C4 as stated: for the vllm provider (default base
URL), a first request whose probe fails is answered with a
`connection_error` whose message names the provider and its base URL but
does not contain the provider's canonical start command (`vllm serve`). -/
theorem C4_counterexample :
    handleDispatch (vllmProvider env0) ⟨false, false⟩ ProbeResult.notOk ProbeResult.notOk =
      (⟨true, false⟩,
       HandleStep.gateError
         ⟨ErrType.connection_error,
          "Cannot connect to vLLM at http://localhost:8000. Make sure vLLM server is running.",
          503⟩,
       ["/api/tags"]) ∧
    jsIncludes (getConnectionErrorMessage (vllmProvider env0))
      (canonicalStartCommand (vllmProvider env0).name) = false := by
  constructor
  · rfl
  · decide

/-! ## Token status file (C9) -/

/-- JavaScript `Math.round`: round half toward positive infinity. -/
def jsRound (q : ℚ) : ℤ := ⌊q + 1 / 2⌋

/-- The handler's session counters and context window. -/
structure TokenState where
  sessionInputTokens : Nat
  sessionOutputTokens : Nat
  contextWindow : Nat
  deriving Repr, DecidableEq

/-- The JSON object written to `<tmp>/claudish-tokens-<port>.json`
(`writeTokenFile`, lines 136-144): exactly these seven fields. -/
structure TokenFileData where
  input_tokens : Nat
  output_tokens : Nat
  total_tokens : Nat
  total_cost : Nat
  context_window : Nat
  context_left_percent : ℤ
  updated_at : Nat
  deriving Repr, DecidableEq

/-- `LocalProviderHandler.writeTokenFile`: add the new usage to the session
counters, compute the clamped context-left percentage, and write the status
object (`updated_at` is `Date.now()`, passed in as `now`). -/
def writeTokenFile (st : TokenState) (input output now : Nat) :
    TokenState × TokenFileData :=
  let st2 : TokenState :=
    { st with
      sessionInputTokens := st.sessionInputTokens + input
      sessionOutputTokens := st.sessionOutputTokens + output }
  let total := st2.sessionInputTokens + st2.sessionOutputTokens
  let leftPct : ℤ :=
    if st.contextWindow > 0 then
      max 0 (min 100
        (jsRound ((((st.contextWindow : ℚ) - (total : ℚ)) / (st.contextWindow : ℚ)) * 100)))
    else 100
  (st2,
    { input_tokens := st2.sessionInputTokens
      output_tokens := st2.sessionOutputTokens
      total_tokens := total
      total_cost := 0
      context_window := st.contextWindow
      context_left_percent := leftPct
      updated_at := now })

/-- C9.  Every write of the token-status file stores exactly the seven
schema fields, with `total_tokens` the sum of the cumulative session input
and output tokens, `total_cost` zero, and `context_left_percent` clamped to
`[0, 100]`. -/
theorem C9_token_file_schema (st : TokenState) (input output now : Nat) :
    ((writeTokenFile st input output now).2.input_tokens =
        st.sessionInputTokens + input) ∧
    ((writeTokenFile st input output now).2.output_tokens =
        st.sessionOutputTokens + output) ∧
    ((writeTokenFile st input output now).2.total_tokens =
        (writeTokenFile st input output now).2.input_tokens +
          (writeTokenFile st input output now).2.output_tokens) ∧
    ((writeTokenFile st input output now).2.total_cost = 0) ∧
    ((writeTokenFile st input output now).2.context_window = st.contextWindow) ∧
    (0 ≤ (writeTokenFile st input output now).2.context_left_percent) ∧
    ((writeTokenFile st input output now).2.context_left_percent ≤ 100) ∧
    ((writeTokenFile st input output now).2.updated_at = now) := by
  refine ⟨rfl, rfl, rfl, rfl, rfl, ?_, ?_, rfl⟩
  · show (0 : ℤ) ≤ (if st.contextWindow > 0 then _ else 100)
    split
    · exact le_max_left 0 _
    · norm_num
  · show (if st.contextWindow > 0 then _ else (100 : ℤ)) ≤ 100
    split
    · exact max_le (by norm_num) (min_le_left _ _)
    · norm_num

/-! ## Port finding (C10) -/

/-- The sequential fallback loop of `findAvailablePort`. -/
def seqSearch (avail : Nat → Bool) (port endPort : Nat) : Option Nat :=
  if h : port ≤ endPort then
    if avail port then some port else seqSearch avail (port + 1) endPort
  else none
termination_by endPort + 1 - port
decreasing_by omega

/-- `findAvailablePort` from the port utility: try one random port in the
range (JavaScript computes `Math.floor(Math.random() * (endPort - startPort
+ 1)) + startPort` with `rand ∈ [0, 1)`), then fall back to the sequential
scan; `none` models the thrown "No available ports found" error. -/
def findAvailablePort (avail : Nat → Bool) (rand : ℚ)
    (startPort endPort : Nat) : Option Nat :=
  let randomPort :=
    (⌊rand * ((endPort : ℚ) - (startPort : ℚ) + 1)⌋).toNat + startPort
  if avail randomPort then some randomPort
  else seqSearch avail startPort endPort

/-- The sequential scan only returns ports inside its range. -/
theorem seqSearch_mem (avail : Nat → Bool) (endPort : Nat) :
    ∀ n port p, endPort + 1 - port ≤ n → seqSearch avail port endPort = some p →
      port ≤ p ∧ p ≤ endPort := by
  intro n
  induction n with
  | zero =>
    intro port p hn h
    rw [seqSearch] at h
    have hgt : ¬ port ≤ endPort := by omega
    simp [hgt] at h
  | succ n ih =>
    intro port p hn h
    rw [seqSearch] at h
    by_cases hle : port ≤ endPort
    · rw [dif_pos hle] at h
      by_cases hav : avail port
      · rw [if_pos hav] at h
        have : port = p := by
          simpa using h
        omega
      · rw [if_neg hav] at h
        have := ih (port + 1) p (by omega) h
        omega
    · rw [dif_neg hle] at h
      exact absurd h (by simp)

/-- C10.  For `startPort ≤ endPort` and `rand ∈ [0, 1)`, whenever
`findAvailablePort` returns a port rather than failing, the port lies in
`[startPort, endPort]` (so with the default arguments, in `[3000, 9000]`). -/
theorem C10_findAvailablePort_range (avail : Nat → Bool) (rand : ℚ)
    (startPort endPort p : Nat) (hse : startPort ≤ endPort)
    (h0 : 0 ≤ rand) (h1 : rand < 1)
    (h : findAvailablePort avail rand startPort endPort = some p) :
    startPort ≤ p ∧ p ≤ endPort := by
  unfold findAvailablePort at h
  have hcast : (startPort : ℚ) ≤ (endPort : ℚ) := by exact_mod_cast hse
  have hnpos : (0 : ℚ) < (endPort : ℚ) - (startPort : ℚ) + 1 := by linarith
  have hlt : rand * ((endPort : ℚ) - (startPort : ℚ) + 1) <
      (endPort : ℚ) - (startPort : ℚ) + 1 := by nlinarith
  have hfl : ⌊rand * ((endPort : ℚ) - (startPort : ℚ) + 1)⌋ <
      (endPort : ℤ) - (startPort : ℤ) + 1 := by
    rw [Int.floor_lt]
    push_cast
    linarith
  have hrange : (⌊rand * ((endPort : ℚ) - (startPort : ℚ) + 1)⌋).toNat + startPort ≤ endPort := by
    omega
  by_cases hav :
      avail ((⌊rand * ((endPort : ℚ) - (startPort : ℚ) + 1)⌋).toNat + startPort)
  · rw [if_pos hav] at h
    have : (⌊rand * ((endPort : ℚ) - (startPort : ℚ) + 1)⌋).toNat + startPort = p := by
      simpa using h
    omega
  · rw [if_neg hav] at h
    exact seqSearch_mem avail endPort (endPort + 1 - startPort) startPort p (le_refl _) h

/-- Witness for C10 at the default argument values 3000 and 9000. -/
theorem C10_findAvailablePort_range_witness :
    findAvailablePort (fun _ => true) 0 3000 9000 = some 3000 ∧
    3000 ≤ 3000 ∧ 3000 ≤ 9000 := by
  have e : findAvailablePort (fun _ => true) 0 3000 9000 = some 3000 := by
    simp [findAvailablePort]
  exact ⟨e, C10_findAvailablePort_range (fun _ => true) 0 3000 9000 3000
    (by norm_num) (by norm_num) (by norm_num) e⟩

/-! ## URL-style model ids (C6) -/

/-- The slice of a parsed WHATWG URL that `parseUrlModel` reads. -/
structure JSUrl where
  protocol : String
  host : String
  pathname : String
  deriving Repr, DecidableEq

/-- Characters that may appear in the authority of an http(s) URL: the
authority runs to the first `/`, `?` or `#`. -/
def isAuthChar (c : Char) : Bool :=
  c != '/' && c != '?' && c != '#'

/-- Characters that may appear in a pathname: it runs to the first query or
fragment delimiter. -/
def isPathChar (c : Char) : Bool :=
  c != '?' && c != '#'

/-- Modelled from the platform: the WHATWG `new URL` parser as
`parseUrlModel` uses it, restricted to http(s) ids, given the characters
after the `scheme://` prefix.  The authority runs to the first `/`, `?` or
`#`; the pathname is the part from the first `/` up to a query or fragment,
and `/` when absent; an empty authority is a parse error.  (Host
case-normalization, userinfo, percent decoding and default-port elision are
not modelled; the claim's inputs do not exercise them.) -/
def urlParseAfterScheme (protocol : String) (rest : List Char) : Option JSUrl :=
  if (rest.takeWhile isAuthChar).isEmpty then none
  else
    some ⟨protocol, ⟨rest.takeWhile isAuthChar⟩,
      match rest.dropWhile isAuthChar with
      | '/' :: t => ⟨('/' :: t).takeWhile isPathChar⟩
      | _ => "/"⟩

/-- Modelled from the platform: `new URL` on the two schemes `parseUrlModel`
admits; any other input is out of scope for the claim. -/
def urlParse (modelId : String) : Option JSUrl :=
  if jsStartsWith modelId "http://" then
    urlParseAfterScheme "http:" (modelId.data.drop 7)
  else if jsStartsWith modelId "https://" then
    urlParseAfterScheme "https:" (modelId.data.drop 8)
  else none

/-- `UrlParsedModel` from `provider-registry.ts`. -/
structure UrlParsedModel where
  baseUrl : String
  modelName : String
  deriving Repr, DecidableEq

/-- JavaScript `pathname.split("/")`. -/
def jsSplitSlash (s : String) : List String :=
  (s.data.splitOn '/').map fun l => (⟨l⟩ : String)

/-- JavaScript `parts.join("/")`. -/
def jsJoinSlash (parts : List String) : String :=
  ⟨['/'].intercalate (parts.map String.data)⟩

/-- The path-processing tail of `parseUrlModel` (lines 172-195): split the
pathname on `/`, keep the truthy segments, fail on an empty list, otherwise
take the last segment as the model name and rebuild the base URL from the
protocol, host and the joined leading segments. -/
def processUrl (url : JSUrl) : Option UrlParsedModel :=
  match (jsSplitSlash url.pathname).filter (fun s => s != "") with
  | [] => none
  | p :: ps =>
    some ⟨url.protocol ++ "//" ++ url.host ++
        (if (p :: ps).length > 1 then
          (if jsJoinSlash ((p :: ps).dropLast) != "" then
            "/" ++ jsJoinSlash ((p :: ps).dropLast)
          else "")
        else ""),
      (p :: ps).getLast (List.cons_ne_nil p ps)⟩

/-- `parseUrlModel` from `provider-registry.ts`: reject ids without an
http(s) scheme, parse the URL (a throwing parse maps to `none` through the
catch arm), and process the path. -/
def parseUrlModel (modelId : String) : Option UrlParsedModel :=
  if jsStartsWith modelId "http://" = false ∧ jsStartsWith modelId "https://" = false then
    none
  else
    match urlParse modelId with
    | none => none
    | some url => processUrl url

/-- String append is associative. -/
theorem strAppend_assoc (a b c : String) : a ++ b ++ c = a ++ (b ++ c) :=
  String.ext (by simp [String.data_append])

/-- A string is a `jsStartsWith`-prefix of any extension of itself. -/
theorem jsStartsWith_append_self (a b : String) : jsStartsWith (a ++ b) a = true := by
  rw [jsStartsWith, List.isPrefixOf_iff_prefix]
  rw [String.data_append]
  exact List.prefix_append _ _

/-- `takeWhile` walks through a block that wholly satisfies the predicate. -/
theorem takeWhile_all_append (p : Char → Bool) (l r : List Char)
    (h : ∀ c ∈ l, p c = true) : (l ++ r).takeWhile p = l ++ r.takeWhile p := by
  induction l with
  | nil => simp
  | cons a t ih =>
    have ha : p a = true := h a (List.mem_cons_self a t)
    simp only [List.cons_append, List.takeWhile_cons, ha, if_true]
    rw [ih fun c hc => h c (List.mem_cons_of_mem a hc)]

/-- `dropWhile` walks through a block that wholly satisfies the predicate. -/
theorem dropWhile_all_append (p : Char → Bool) (l r : List Char)
    (h : ∀ c ∈ l, p c = true) : (l ++ r).dropWhile p = r.dropWhile p := by
  induction l with
  | nil => simp
  | cons a t ih =>
    have ha : p a = true := h a (List.mem_cons_self a t)
    simp only [List.cons_append, List.dropWhile_cons, ha, if_true]
    exact ih fun c hc => h c (List.mem_cons_of_mem a hc)

/-- `takeWhile` keeps a list that wholly satisfies the predicate. -/
theorem takeWhile_all (p : Char → Bool) (l : List Char)
    (h : ∀ c ∈ l, p c = true) : l.takeWhile p = l := by
  have h2 := takeWhile_all_append p l [] h
  simpa using h2

/-- `dropWhile` empties a list that wholly satisfies the predicate. -/
theorem dropWhile_all (p : Char → Bool) (l : List Char)
    (h : ∀ c ∈ l, p c = true) : l.dropWhile p = [] := by
  have h2 := dropWhile_all_append p l [] h
  simpa using h2

/-- The two-or-more step of joining with `/`. -/
theorem joinSlash_cons_cons (a b : String) (t : List String) :
    (jsJoinSlash (a :: b :: t)).data =
      a.data ++ '/' :: (jsJoinSlash (b :: t)).data := by
  show ['/'].intercalate (a.data :: b.data :: t.map String.data) =
    a.data ++ '/' :: ['/'].intercalate (b.data :: t.map String.data)
  simp [List.intercalate, List.intersperse_cons_cons, List.flatten]

/-- Joining a single segment is that segment. -/
theorem joinSlash_singleton (a : String) : jsJoinSlash [a] = a := by
  apply String.ext
  show ['/'].intercalate [a.data] = a.data
  simp [List.intercalate]

/-- Every character of a joined path is a slash or a segment character. -/
theorem mem_joinSlash (segs : List String) (c : Char)
    (hc : c ∈ (jsJoinSlash segs).data) : c = '/' ∨ ∃ s ∈ segs, c ∈ s.data := by
  induction segs with
  | nil =>
    simp [jsJoinSlash, List.intercalate] at hc
  | cons a t ih =>
    cases t with
    | nil =>
      rw [joinSlash_singleton] at hc
      exact Or.inr ⟨a, List.mem_cons_self a [], hc⟩
    | cons b t2 =>
      rw [joinSlash_cons_cons] at hc
      rcases List.mem_append.mp hc with h1 | h1
      · exact Or.inr ⟨a, List.mem_cons_self a _, h1⟩
      · rcases List.mem_cons.mp h1 with h2 | h2
        · exact Or.inl h2
        · rcases ih h2 with h3 | ⟨s, hsm, hcs⟩
          · exact Or.inl h3
          · exact Or.inr ⟨s, List.mem_cons_of_mem a hsm, hcs⟩

/-- A joined list of nonempty segments is nonempty. -/
theorem joinSlash_ne_empty (parts : List String) (hne : parts ≠ [])
    (hel : ∀ s ∈ parts, s ≠ "") : jsJoinSlash parts ≠ "" := by
  cases parts with
  | nil => exact absurd rfl hne
  | cons a t =>
    cases t with
    | nil =>
      rw [joinSlash_singleton]
      exact hel a (List.mem_cons_self a [])
    | cons b t2 =>
      intro h
      have hd : (jsJoinSlash (a :: b :: t2)).data = [] := by
        rw [h]
      rw [joinSlash_cons_cons] at hd
      simp at hd

/-- Splitting a joined slash-free segment list recovers the segments. -/
theorem splitOn_joinSlash (segs : List String) (hne : segs ≠ [])
    (hs : ∀ s ∈ segs, ∀ c ∈ s.data, c ≠ '/') :
    (jsJoinSlash segs).data.splitOn '/' = segs.map String.data := by
  have hx : ∀ l ∈ segs.map String.data, '/' ∉ l := by
    intro l hl
    rcases List.mem_map.mp hl with ⟨s, hsmem, rfl⟩
    intro hmem
    exact hs s hsmem '/' hmem rfl
  have hls : segs.map String.data ≠ [] := by
    simpa using hne
  have key : (['/'].intercalate (segs.map String.data)).splitOn '/' =
      segs.map String.data :=
    List.splitOn_intercalate (segs.map String.data) '/' hx hls
  simpa [jsJoinSlash] using key

/-- Rebuilding the split segments as strings is the identity. -/
theorem map_mk_data (segs : List String) :
    (segs.map String.data).map (fun l => (⟨l⟩ : String)) = segs := by
  induction segs with
  | nil => rfl
  | cons a t ih =>
    simp only [List.map_cons, ih]

/-- Splitting `"/" ++ join(segs)` and keeping the truthy parts gives back
`segs`, when the segments are nonempty and slash-free. -/
theorem pathParts_of_joinSlash (segs : List String) (hne : segs ≠ [])
    (hs : ∀ s ∈ segs, s ≠ "" ∧ ∀ c ∈ s.data, isAuthChar c = true) :
    (jsSplitSlash ("/" ++ jsJoinSlash segs)).filter (fun s => s != "") = segs := by
  have hsd : ("/" : String).data = ['/'] := rfl
  have hslash : ("/" ++ jsJoinSlash segs).data = '/' :: (jsJoinSlash segs).data := by
    simp [String.data_append, hsd]
  have hnoslash : ∀ s ∈ segs, ∀ c ∈ s.data, c ≠ '/' := by
    intro s hsm c hcm heq
    have h2 := (hs s hsm).2 c hcm
    rw [heq] at h2
    simp [isAuthChar] at h2
  rw [jsSplitSlash, hslash]
  rw [show ('/' :: (jsJoinSlash segs).data).splitOn '/' =
      [] :: (jsJoinSlash segs).data.splitOn '/' from by
    simp [List.splitOn, List.splitOnP_cons]]
  rw [splitOn_joinSlash segs hne hnoslash]
  simp only [List.map_cons, map_mk_data]
  rw [show ((⟨[]⟩ : String) :: segs).filter (fun s => s != "") =
      segs.filter (fun s => s != "") from by
    simp [List.filter_cons]]
  exact List.filter_eq_self.mpr fun s hsm => by
    simpa using (hs s hsm).1

/-- The model URL parser on a host followed by a slash-led path. -/
theorem urlParseAfterScheme_spec (protocol host : String) (segs : List String)
    (hh : host ≠ "") (hhc : ∀ c ∈ host.data, isAuthChar c = true)
    (hs : ∀ s ∈ segs, s ≠ "" ∧ ∀ c ∈ s.data, isAuthChar c = true) :
    urlParseAfterScheme protocol (host.data ++ '/' :: (jsJoinSlash segs).data) =
      some ⟨protocol, host, "/" ++ jsJoinSlash segs⟩ := by
  have hauth : (host.data ++ '/' :: (jsJoinSlash segs).data).takeWhile isAuthChar =
      host.data := by
    rw [takeWhile_all_append isAuthChar _ _ hhc]
    simp [List.takeWhile_cons, isAuthChar]
  have hdrop : (host.data ++ '/' :: (jsJoinSlash segs).data).dropWhile isAuthChar =
      '/' :: (jsJoinSlash segs).data := by
    rw [dropWhile_all_append isAuthChar _ _ hhc]
    simp [List.dropWhile_cons, isAuthChar]
  have hpath : ('/' :: (jsJoinSlash segs).data).takeWhile isPathChar =
      '/' :: (jsJoinSlash segs).data := by
    apply takeWhile_all
    intro c hc
    rcases List.mem_cons.mp hc with rfl | hc2
    · decide
    · rcases mem_joinSlash segs c hc2 with rfl | ⟨s, hsm, hcm⟩
      · decide
      · have h2 := (hs s hsm).2 c hcm
        simp only [isAuthChar, Bool.and_eq_true] at h2
        simp [isPathChar, h2.1.2, h2.2]
  have hne : host.data.isEmpty = false := by
    cases hd : host.data with
    | nil =>
      exact absurd (String.ext (by rw [hd])) hh
    | cons a t => rfl
  rw [urlParseAfterScheme, hauth, hdrop, hne]
  simp only [Bool.false_eq_true, if_false]
  rw [hpath]
  refine congrArg some ?_
  refine congrArg (JSUrl.mk protocol host) ?_
  apply String.ext
  simp [String.data_append]

/-- The model URL parser on a bare host, or a host with a bare trailing
slash: the pathname normalizes to `/`. -/
theorem urlParseAfterScheme_root (protocol host : String)
    (hh : host ≠ "") (hhc : ∀ c ∈ host.data, isAuthChar c = true) :
    urlParseAfterScheme protocol host.data = some ⟨protocol, host, "/"⟩ ∧
    urlParseAfterScheme protocol (host.data ++ ['/']) = some ⟨protocol, host, "/"⟩ := by
  have hne : host.data.isEmpty = false := by
    cases hd : host.data with
    | nil =>
      exact absurd (String.ext (by rw [hd])) hh
    | cons a t => rfl
  constructor
  · rw [urlParseAfterScheme, takeWhile_all isAuthChar _ hhc,
      dropWhile_all isAuthChar _ hhc, hne]
    rfl
  · have hauth : (host.data ++ ['/']).takeWhile isAuthChar = host.data := by
      rw [takeWhile_all_append isAuthChar _ _ hhc]
      simp [List.takeWhile_cons, isAuthChar]
    have hdrop : (host.data ++ ['/']).dropWhile isAuthChar = ['/'] := by
      rw [dropWhile_all_append isAuthChar _ _ hhc]
      simp [List.dropWhile_cons, isAuthChar]
    rw [urlParseAfterScheme, hauth, hdrop, hne]
    rfl

/-- The path-processing tail on a root pathname fails: no truthy segment. -/
theorem processUrl_root (protocol host : String) :
    processUrl ⟨protocol, host, "/"⟩ = none := by
  rw [processUrl]
  rw [show (jsSplitSlash "/").filter (fun s => s != "") = [] from by decide]

/-- The path-processing tail on `"/" ++ join(segs)` returns the last segment
and rebuilds the base from the leading ones. -/
theorem processUrl_spec (protocol host : String) (segs : List String)
    (hne : segs ≠ [])
    (hs : ∀ s ∈ segs, s ≠ "" ∧ ∀ c ∈ s.data, isAuthChar c = true) :
    processUrl ⟨protocol, host, "/" ++ jsJoinSlash segs⟩ =
      some ⟨protocol ++ "//" ++ host ++
          (if segs.length > 1 then "/" ++ jsJoinSlash segs.dropLast else ""),
        segs.getLast hne⟩ := by
  obtain ⟨p, ps, rfl⟩ : ∃ p ps, segs = p :: ps := by
    cases segs with
    | nil => exact absurd rfl hne
    | cons p ps => exact ⟨p, ps, rfl⟩
  rw [processUrl]
  rw [show (⟨protocol, host, "/" ++ jsJoinSlash (p :: ps)⟩ : JSUrl).pathname =
    "/" ++ jsJoinSlash (p :: ps) from rfl]
  rw [pathParts_of_joinSlash (p :: ps) hne hs]
  cases ps with
  | nil =>
    rfl
  | cons q ps2 =>
    have hdl : (p :: q :: ps2).dropLast ≠ [] := by
      have hlen : (p :: q :: ps2).dropLast.length = ps2.length + 1 := by
        simp
      exact List.ne_nil_of_length_pos (by omega)
    have hel : ∀ s ∈ (p :: q :: ps2).dropLast, s ≠ "" := by
      intro s hsm
      exact (hs s ((List.dropLast_sublist _).subset hsm)).1
    have hpreP : jsJoinSlash ((p :: q :: ps2).dropLast) ≠ "" :=
      joinSlash_ne_empty _ hdl hel
    have hpreP2 : jsJoinSlash (p :: (q :: ps2).dropLast) ≠ "" := by
      simpa using hpreP
    simp [hpreP2]

/-- Past the scheme test, `parseUrlModel` is `processUrl` of the parsed URL. -/
theorem parseUrlModel_eq_processUrl (modelId : String) (url : JSUrl)
    (hw : ¬ (jsStartsWith modelId "http://" = false ∧
      jsStartsWith modelId "https://" = false))
    (hurl : urlParse modelId = some url) :
    parseUrlModel modelId = processUrl url := by
  rw [parseUrlModel, if_neg hw, hurl]

/-- C6.  A model id `scheme//host/seg1/…/segN` (scheme http or https, N ≥ 1,
well-formed host and segments) parses to the last segment as the model name
and `protocol//host/` plus the leading segments as the base URL; a model id
starting with neither scheme parses to `none`, as does a scheme-and-host id
whose path is empty (bare host or a lone trailing slash). -/
theorem C6_parseUrlModel_spec :
    (∀ scheme host segs, (scheme = "http://" ∨ scheme = "https://") → host ≠ "" →
      (∀ c ∈ host.data, isAuthChar c = true) → segs ≠ [] →
      (∀ s ∈ segs, s ≠ "" ∧ ∀ c ∈ s.data, isAuthChar c = true) →
      ∀ hne : segs ≠ [],
      parseUrlModel (scheme ++ host ++ "/" ++ jsJoinSlash segs) =
        some ⟨(if scheme = "http://" then "http:" else "https:") ++ "//" ++ host ++
            (if segs.length > 1 then "/" ++ jsJoinSlash segs.dropLast else ""),
          segs.getLast hne⟩) ∧
    (∀ modelId, jsStartsWith modelId "http://" = false →
      jsStartsWith modelId "https://" = false →
      parseUrlModel modelId = none) ∧
    (∀ scheme host, (scheme = "http://" ∨ scheme = "https://") → host ≠ "" →
      (∀ c ∈ host.data, isAuthChar c = true) →
      parseUrlModel (scheme ++ host) = none ∧
      parseUrlModel (scheme ++ host ++ "/") = none) := by
  have hsd : ("/" : String).data = ['/'] := rfl
  refine ⟨?_, ?_, ?_⟩
  · intro scheme host segs hsch hh hhc hne hs hne2
    rcases hsch with rfl | rfl
    · have hsplit : ("http://" ++ host ++ "/" ++ jsJoinSlash segs).data =
          "http://".data ++ (host.data ++ '/' :: (jsJoinSlash segs).data) := by
        simp [String.data_append, hsd]
      have hw : jsStartsWith ("http://" ++ host ++ "/" ++ jsJoinSlash segs) "http://" = true := by
        rw [jsStartsWith, List.isPrefixOf_iff_prefix, hsplit]
        exact List.prefix_append _ _
      have hdrop7 : ("http://" ++ host ++ "/" ++ jsJoinSlash segs).data.drop 7 =
          host.data ++ '/' :: (jsJoinSlash segs).data := by
        rw [hsplit, show (7 : Nat) = "http://".data.length from rfl]
        exact List.drop_left _ _
      have hurl : urlParse ("http://" ++ host ++ "/" ++ jsJoinSlash segs) =
          some ⟨"http:", host, "/" ++ jsJoinSlash segs⟩ := by
        rw [urlParse, hw]
        simp only [if_true]
        rw [hdrop7]
        exact urlParseAfterScheme_spec "http:" host segs hh hhc hs
      rw [parseUrlModel_eq_processUrl _ _ (by simp [hw]) hurl,
        processUrl_spec "http:" host segs hne hs]
      simp
    · have hsplit : ("https://" ++ host ++ "/" ++ jsJoinSlash segs).data =
          "https://".data ++ (host.data ++ '/' :: (jsJoinSlash segs).data) := by
        simp [String.data_append, hsd]
      have hw : jsStartsWith ("https://" ++ host ++ "/" ++ jsJoinSlash segs) "https://" = true := by
        rw [jsStartsWith, List.isPrefixOf_iff_prefix, hsplit]
        exact List.prefix_append _ _
      have hw2 : jsStartsWith ("https://" ++ host ++ "/" ++ jsJoinSlash segs) "http://" = false :=
        jsStartsWith_false_of_incomp hw (by decide) (by decide)
      have hdrop8 : ("https://" ++ host ++ "/" ++ jsJoinSlash segs).data.drop 8 =
          host.data ++ '/' :: (jsJoinSlash segs).data := by
        rw [hsplit, show (8 : Nat) = "https://".data.length from rfl]
        exact List.drop_left _ _
      have hurl : urlParse ("https://" ++ host ++ "/" ++ jsJoinSlash segs) =
          some ⟨"https:", host, "/" ++ jsJoinSlash segs⟩ := by
        rw [urlParse, hw2]
        simp only [Bool.false_eq_true, if_false, hw, if_true]
        rw [hdrop8]
        exact urlParseAfterScheme_spec "https:" host segs hh hhc hs
      rw [parseUrlModel_eq_processUrl _ _ (by simp [hw]) hurl,
        processUrl_spec "https:" host segs hne hs]
      simp
  · intro modelId h1 h2
    rw [parseUrlModel, if_pos ⟨h1, h2⟩]
  · intro scheme host hsch hh hhc
    rcases hsch with rfl | rfl
    · have hsplit : ("http://" ++ host).data = "http://".data ++ host.data := by
        simp [String.data_append]
      have hsplit2 : ("http://" ++ host ++ "/").data =
          "http://".data ++ (host.data ++ ['/']) := by
        simp [String.data_append, hsd]
      have hw : jsStartsWith ("http://" ++ host) "http://" = true :=
        jsStartsWith_append_self _ _
      have hw2 : jsStartsWith ("http://" ++ host ++ "/") "http://" = true := by
        rw [jsStartsWith, List.isPrefixOf_iff_prefix, hsplit2]
        exact List.prefix_append _ _
      constructor
      · have hurl : urlParse ("http://" ++ host) = some ⟨"http:", host, "/"⟩ := by
          rw [urlParse, hw]
          simp only [if_true]
          rw [show ("http://" ++ host).data.drop 7 = host.data from by
            rw [hsplit, show (7 : Nat) = "http://".data.length from rfl]
            exact List.drop_left _ _]
          exact (urlParseAfterScheme_root "http:" host hh hhc).1
        rw [parseUrlModel_eq_processUrl _ _ (by simp [hw]) hurl, processUrl_root]
      · have hurl : urlParse ("http://" ++ host ++ "/") = some ⟨"http:", host, "/"⟩ := by
          rw [urlParse, hw2]
          simp only [if_true]
          rw [show ("http://" ++ host ++ "/").data.drop 7 = host.data ++ ['/'] from by
            rw [hsplit2, show (7 : Nat) = "http://".data.length from rfl]
            exact List.drop_left _ _]
          exact (urlParseAfterScheme_root "http:" host hh hhc).2
        rw [parseUrlModel_eq_processUrl _ _ (by simp [hw2]) hurl, processUrl_root]
    · have hsplit : ("https://" ++ host).data = "https://".data ++ host.data := by
        simp [String.data_append]
      have hsplit2 : ("https://" ++ host ++ "/").data =
          "https://".data ++ (host.data ++ ['/']) := by
        simp [String.data_append, hsd]
      have hw : jsStartsWith ("https://" ++ host) "https://" = true :=
        jsStartsWith_append_self _ _
      have hw2 : jsStartsWith ("https://" ++ host ++ "/") "https://" = true := by
        rw [jsStartsWith, List.isPrefixOf_iff_prefix, hsplit2]
        exact List.prefix_append _ _
      have hx : jsStartsWith ("https://" ++ host) "http://" = false :=
        jsStartsWith_false_of_incomp hw (by decide) (by decide)
      have hx2 : jsStartsWith ("https://" ++ host ++ "/") "http://" = false :=
        jsStartsWith_false_of_incomp hw2 (by decide) (by decide)
      constructor
      · have hurl : urlParse ("https://" ++ host) = some ⟨"https:", host, "/"⟩ := by
          rw [urlParse, hx]
          simp only [Bool.false_eq_true, if_false, hw, if_true]
          rw [show ("https://" ++ host).data.drop 8 = host.data from by
            rw [hsplit, show (8 : Nat) = "https://".data.length from rfl]
            exact List.drop_left _ _]
          exact (urlParseAfterScheme_root "https:" host hh hhc).1
        rw [parseUrlModel_eq_processUrl _ _ (by simp [hw]) hurl, processUrl_root]
      · have hurl : urlParse ("https://" ++ host ++ "/") = some ⟨"https:", host, "/"⟩ := by
          rw [urlParse, hx2]
          simp only [Bool.false_eq_true, if_false, hw2, if_true]
          rw [show ("https://" ++ host ++ "/").data.drop 8 = host.data ++ ['/'] from by
            rw [hsplit2, show (8 : Nat) = "https://".data.length from rfl]
            exact List.drop_left _ _]
          exact (urlParseAfterScheme_root "https:" host hh hhc).2
        rw [parseUrlModel_eq_processUrl _ _ (by simp [hw2]) hurl, processUrl_root]

/-- Witness for C6: an ollama-style URL id with a `v1` path prefix, a
prefix-style id, and a bare host URL. -/
theorem C6_parseUrlModel_spec_witness :
    parseUrlModel "http://localhost:11434/v1/llama3" =
      some ⟨"http://localhost:11434/v1", "llama3"⟩ ∧
    parseUrlModel "ollama/llama3" = none ∧
    parseUrlModel "http://localhost:11434" = none := by
  have h := C6_parseUrlModel_spec
  refine ⟨?_, ?_, ?_⟩
  · have e := h.1 "http://" "localhost:11434" ["v1", "llama3"] (Or.inl rfl)
      (by decide) (by decide) (by decide) (by decide) (by decide)
    rw [show "http://" ++ "localhost:11434" ++ "/" ++ jsJoinSlash ["v1", "llama3"] =
      "http://localhost:11434/v1/llama3" from by decide] at e
    exact e.trans (by decide)
  · exact h.2.1 "ollama/llama3" (by decide) (by decide)
  · exact (h.2.2 "http://" "localhost:11434" (Or.inl rfl) (by decide) (by decide)).1

end Claudish
